import Mathlib

/-!
# Verification of the xtra envelope layer (`src/envelope.rs`)

Shallow embedding of the message-dispatch core of the xtra actor runtime.

* `Oneshot` models `futures::channel::oneshot`: a single-producer
  single-consumer one-shot channel.  The sender's `send` places the value
  unless the receiver was dropped, in which case the value is handed back in
  an `Except.error` (never a panic).  A ghost field `sends` counts how many
  send operations were performed on the channel; it instruments the model for
  the at-most-one-send invariant and has no behavioural effect.
* `Handler A Ctx M R` models the capability `A: Handler<M>`: the completed
  computation of `act.handle(message, ctx)`, mutating the actor and context
  and producing a value of `M::Result = R`.
* `ReturningEnvelope` and `NonReturningEnvelope` are translated field by
  field from `src/envelope.rs` (the zero-sized `PhantomData<A>` field carries
  no runtime value and is omitted, per the source's own description of it as
  pure type linkage).
* `EnvelopeLife` models the ownership discipline of
  `MessageEnvelope::handle(self: Box<Self>, ..)`: the box is an affine
  resource, consumed by the first (and hence only) invocation of `handle`.
* The address layer: the two `AddressEnvelope` impls for `Address<A>` and
  `WeakAddress<A>` are in `src/envelope.rs`; the `AddressExt` operations they
  delegate to live in `address.rs`, which is not part of the sources, so
  those operations are modelled from the spec.
-/

/-- Result of a `futures::channel::oneshot::Receiver` that resolved without a
value: the sending half was dropped before sending. -/
inductive Canceled : Type where
  | canceled : Canceled
deriving DecidableEq, Repr

/-- Model of a `futures::channel::oneshot` channel, seen as the shared state
the `Sender` writes into and the `Receiver` reads from.  `receiverDropped`
records whether the receiving half has been dropped; `value` is the value
placed by a successful send, if any.  `sends` is ghost instrumentation
counting the send operations performed over the channel's lifetime. -/
structure Oneshot (R : Type) where
  receiverDropped : Bool
  value : Option R
  sends : Nat
deriving DecidableEq, Repr

/-- `oneshot::channel()`: a fresh channel; both halves alive, nothing sent. -/
def Oneshot.channel {R : Type} : Oneshot R :=
  { receiverDropped := false, value := none, sends := 0 }

/-- `Sender::send(self, r)`: consumes the sender.  If the receiver is gone the
value is returned back to the caller in `Except.error r` (no panic); otherwise
the value is placed in the channel.  Either way this is one send operation. -/
def Oneshot.send {R : Type} (ch : Oneshot R) (r : R) : Oneshot R × Except R Unit :=
  if ch.receiverDropped then
    ({ ch with sends := ch.sends + 1 }, Except.error r)
  else
    ({ ch with value := some r, sends := ch.sends + 1 }, Except.ok ())

/-- Dropping the receiving half of the channel. -/
def Oneshot.dropReceiver {R : Type} (ch : Oneshot R) : Oneshot R :=
  { ch with receiverDropped := true }

/-- `Receiver`: resolves to the value sent through the channel, or to
`Canceled` when the channel was closed without a value. -/
def Oneshot.recv {R : Type} (ch : Oneshot R) : Except Canceled R :=
  match ch.value with
  | some r => Except.ok r
  | none => Except.error Canceled.canceled

/-- Outcome of running a handler's suspending computation to completion:
the mutated actor, the mutated context, and the produced `M::Result` value. -/
structure HandlerOutcome (A Ctx R : Type) where
  act : A
  ctx : Ctx
  result : R
deriving DecidableEq, Repr

/-- The `Handler<M>` capability of actor type `A`: the completed computation
of `act.handle(message, ctx)`.  Argument order follows the source:
actor, message, context. -/
def Handler (A Ctx M R : Type) : Type :=
  A → M → Ctx → HandlerOutcome A Ctx R

/-- `ReturningEnvelope<A, M>` from `src/envelope.rs`: owns the message and
the sending half of the one-shot reply channel.  The `PhantomData<A>` field
is zero-sized type linkage and carries no runtime value. -/
structure ReturningEnvelope (M R : Type) where
  message : M
  result_sender : Oneshot R
deriving DecidableEq, Repr

/-- `ReturningEnvelope::new(message)`: creates a fresh one-shot channel and
an envelope owning the message and the sending half.  The Rust function also
returns the paired `Receiver`; in this model the receiver is the capability
to read (`Oneshot.recv`) the channel state that `handle` outputs. -/
def ReturningEnvelope.new {M R : Type} (message : M) : ReturningEnvelope M R :=
  { message := message, result_sender := Oneshot.channel }

/-- Result of `MessageEnvelope::handle` for a `ReturningEnvelope`, after the
returned future has been driven to completion: the mutated actor and context
and the final state of the reply channel. -/
structure HandleResult (A Ctx R : Type) where
  act : A
  ctx : Ctx
  chan : Oneshot R
deriving DecidableEq, Repr

/-- `<ReturningEnvelope as MessageEnvelope>::handle`: destructures the
envelope, invokes `act.handle(message, ctx)`, and upon completion sends the
produced result through the sending half, discarding the send's `Result`
(`let _ = result_sender.send(r)`). -/
def ReturningEnvelope.handle {A Ctx M R : Type} (h : Handler A Ctx M R)
    (env : ReturningEnvelope M R) (act : A) (ctx : Ctx) : HandleResult A Ctx R :=
  let o := h act env.message ctx
  let sent := env.result_sender.send o.result
  { act := o.act, ctx := o.ctx, chan := sent.1 }

/-- `NonReturningEnvelope<A, M>` from `src/envelope.rs`: owns only the
message.  `PhantomData<A>` omitted as above. -/
structure NonReturningEnvelope (M : Type) where
  message : M
deriving DecidableEq, Repr

/-- `NonReturningEnvelope::new(message)`. -/
def NonReturningEnvelope.new {M : Type} (message : M) : NonReturningEnvelope M :=
  { message := message }

/-- `<NonReturningEnvelope as MessageEnvelope>::handle`: invokes
`act.handle(self.message, ctx)` and maps the produced result to `()`,
discarding it (`.map(|_| ())`). -/
def NonReturningEnvelope.handle {A Ctx M R : Type} (h : Handler A Ctx M R)
    (env : NonReturningEnvelope M) (act : A) (ctx : Ctx) : A × Ctx × Unit :=
  let o := h act env.message ctx
  (o.act, o.ctx, ())

/-- A type-erased boxed envelope, `Box<dyn MessageEnvelope<Actor = A>>`:
only the actor type survives erasure; the carried message and result types
are hidden inside.  For the purpose of following one envelope's lifetime we
keep its reply-channel type `R` visible so the channel state can be observed
(a `NonReturningEnvelope` simply never touches it). -/
def BoxedEnvelope (A Ctx R : Type) : Type :=
  A → Ctx → Oneshot R → A × Ctx × Oneshot R

/-- Erasing a `ReturningEnvelope` into the trait object.  The envelope owns
its own sending half, so the channel state it outputs is the one it carries;
the incoming channel argument of the erased signature is superseded by it. -/
def ReturningEnvelope.intoBoxed {A Ctx M R : Type} (h : Handler A Ctx M R)
    (env : ReturningEnvelope M R) : BoxedEnvelope A Ctx R :=
  fun act ctx _ =>
    let r := ReturningEnvelope.handle h env act ctx
    (r.act, r.ctx, r.chan)

/-- Erasing a `NonReturningEnvelope` into the trait object: no reply channel
is involved, so the channel state passes through untouched. -/
def NonReturningEnvelope.intoBoxed {A Ctx M R : Type} (h : Handler A Ctx M R)
    (env : NonReturningEnvelope M) : BoxedEnvelope A Ctx R :=
  fun act ctx ch =>
    let r := NonReturningEnvelope.handle h env act ctx
    (r.1, r.2.1, ch)

/-- The lifetime of one boxed envelope together with the actor it is destined
for.  `boxed` is `some e` while the box is still owned unconsumed (by the
mailbox or an in-flight call) and `none` once `handle` — which takes
`self: Box<Self>` by value — has consumed it. -/
structure EnvelopeLife (A Ctx R : Type) where
  boxed : Option (BoxedEnvelope A Ctx R)
  act : A
  ctx : Ctx
  chan : Oneshot R

/-- One attempt by the run loop to invoke `handle` on the envelope and drive
the returned future to completion.  While the box is owned, `handle` consumes
it (ownership transfer, not a borrow); once consumed the box no longer
exists, so the attempt has nothing to invoke and the state is unchanged. -/
def EnvelopeLife.step {A Ctx R : Type} (s : EnvelopeLife A Ctx R) : EnvelopeLife A Ctx R :=
  match s.boxed with
  | none => s
  | some e =>
      let r := e s.act s.ctx s.chan
      { boxed := none, act := r.1, ctx := r.2.1, chan := r.2.2 }

/-- Initial lifetime state of a freshly constructed, boxed
`ReturningEnvelope` for message `m`: the channel is the fresh one created by
`new`, nothing sent yet. -/
def EnvelopeLife.initReturning {A Ctx M R : Type} (h : Handler A Ctx M R)
    (m : M) (act : A) (ctx : Ctx) : EnvelopeLife A Ctx R :=
  { boxed := some (ReturningEnvelope.intoBoxed h (ReturningEnvelope.new m))
    act := act, ctx := ctx, chan := Oneshot.channel }

theorem EnvelopeLife.step_step {A Ctx R : Type} (s : EnvelopeLife A Ctx R) :
    EnvelopeLife.step (EnvelopeLife.step s) = EnvelopeLife.step s := by
  unfold EnvelopeLife.step
  cases h : s.boxed with
  | none => simp [h]
  | some e => simp

theorem EnvelopeLife.iterate_step {A Ctx R : Type} (s : EnvelopeLife A Ctx R) (n : Nat) :
    EnvelopeLife.step^[n + 1] s = EnvelopeLife.step s := by
  induction n with
  | zero => rfl
  | succ k ih =>
      rw [Function.iterate_succ_apply', ih]
      exact EnvelopeLife.step_step s

/-! ## The address layer

The two `AddressEnvelope<M>` impls (for `Address<A>` and `WeakAddress<A>`)
are in `src/envelope.rs`; each of their `is_connected`, `do_send` and `send`
methods is a one-line delegation to the corresponding `AddressExt` operation.
The `AddressExt` operations themselves, and the inherent
`Address::downgrade`, live in `address.rs`, which is not among the sources;
they are modelled from the spec below. -/

/-- The single externally visible error kind of the layer: the target actor's
mailbox endpoint is no longer reachable. -/
inductive Disconnected : Type where
  | disconnected : Disconnected
deriving DecidableEq, Repr

/-- The two envelope variants, used to record what a send operation
enqueues. -/
inductive EnvKind : Type where
  | returning : EnvKind
  | nonReturning : EnvKind
deriving DecidableEq, Repr

/-- Modelled from the spec: the state of one actor's mailbox endpoint as the
address layer observes it.  `strongAlive` records whether any strong owner of
the actor still exists (a weak address can observe the actor becoming
unreachable); `mailboxOpen` whether the mailbox endpoint is still reachable;
`queue` the envelopes enqueued so far, each tagged with its variant and
carrying its message. -/
structure ActorEndpoint (M : Type) where
  strongAlive : Bool
  mailboxOpen : Bool
  queue : List (EnvKind × M)
deriving DecidableEq, Repr

/-- `Address<A>`: a strong, ownership-participating handle to an actor's
mailbox endpoint, identified by the endpoint it refers to. -/
structure Address where
  ref : Nat
deriving DecidableEq, Repr

/-- `WeakAddress<A>`: a non-owning handle to the same kind of endpoint. -/
structure WeakAddress where
  ref : Nat
deriving DecidableEq, Repr

/-- Modelled from the spec: `AddressExt::is_connected` seen from a strong
address.  True iff the mailbox endpoint is still reachable; holding the
strong address itself keeps the actor from vanishing. -/
def AddressExt.is_connected_strong {M : Type} (e : ActorEndpoint M) : Bool :=
  e.mailboxOpen

/-- Modelled from the spec: `AddressExt::is_connected` seen from a weak
address, which transparently tolerates the actor having vanished by
reporting `false` once no strong owner remains. -/
def AddressExt.is_connected_weak {M : Type} (e : ActorEndpoint M) : Bool :=
  e.strongAlive && e.mailboxOpen

/-- Modelled from the spec: `AddressExt::do_send` from a strong address —
constructs a `NonReturningEnvelope` for the message and enqueues it, failing
with `Disconnected` if the mailbox is closed.  Never waits for handling. -/
def AddressExt.do_send_strong {M : Type} (e : ActorEndpoint M) (m : M) :
    ActorEndpoint M × Except Disconnected Unit :=
  if AddressExt.is_connected_strong e then
    ({ e with queue := e.queue ++ [(EnvKind.nonReturning, m)] }, Except.ok ())
  else
    (e, Except.error Disconnected.disconnected)

/-- Modelled from the spec: `AddressExt::do_send` from a weak address —
identical, except that a vanished actor also reports `Disconnected`. -/
def AddressExt.do_send_weak {M : Type} (e : ActorEndpoint M) (m : M) :
    ActorEndpoint M × Except Disconnected Unit :=
  if AddressExt.is_connected_weak e then
    ({ e with queue := e.queue ++ [(EnvKind.nonReturning, m)] }, Except.ok ())
  else
    (e, Except.error Disconnected.disconnected)

/-- Modelled from the spec: `AddressExt::send` from a strong address —
constructs a `ReturningEnvelope`, enqueues it and hands back the paired
receiving half (`Except.ok` here stands for the successfully obtained
`MessageResponseFuture`); fails with `Disconnected` if unreachable. -/
def AddressExt.send_strong {M : Type} (e : ActorEndpoint M) (m : M) :
    ActorEndpoint M × Except Disconnected Unit :=
  if AddressExt.is_connected_strong e then
    ({ e with queue := e.queue ++ [(EnvKind.returning, m)] }, Except.ok ())
  else
    (e, Except.error Disconnected.disconnected)

/-- Modelled from the spec: `AddressExt::send` from a weak address. -/
def AddressExt.send_weak {M : Type} (e : ActorEndpoint M) (m : M) :
    ActorEndpoint M × Except Disconnected Unit :=
  if AddressExt.is_connected_weak e then
    ({ e with queue := e.queue ++ [(EnvKind.returning, m)] }, Except.ok ())
  else
    (e, Except.error Disconnected.disconnected)

/-- Modelled from the spec: the inherent `Address::downgrade` (in
`address.rs`, not among the sources) — returns a non-owning weak handle to
the same actor. -/
def Address.downgrade (a : Address) : WeakAddress :=
  { ref := a.ref }

/-- `Box<dyn AddressEnvelope<M>>`: the erased address capability, backed
either by a strong `Address<A>` or by a `WeakAddress<A>`. -/
inductive AddrEnvelope : Type where
  | strong : Address → AddrEnvelope
  | weak : WeakAddress → AddrEnvelope
deriving DecidableEq, Repr

/-- `AddressEnvelope::is_connected` of the two impls in `src/envelope.rs`:
each delegates to `AddressExt::is_connected(self)`. -/
def AddrEnvelope.is_connected {M : Type} : AddrEnvelope → ActorEndpoint M → Bool
  | AddrEnvelope.strong _, e => AddressExt.is_connected_strong e
  | AddrEnvelope.weak _, e => AddressExt.is_connected_weak e

/-- `AddressEnvelope::do_send` of the two impls: each delegates to
`AddressExt::do_send(self, message)`. -/
def AddrEnvelope.do_send {M : Type} :
    AddrEnvelope → ActorEndpoint M → M → ActorEndpoint M × Except Disconnected Unit
  | AddrEnvelope.strong _, e, m => AddressExt.do_send_strong e m
  | AddrEnvelope.weak _, e, m => AddressExt.do_send_weak e m

/-- `AddressEnvelope::send` of the two impls: each delegates to
`AddressExt::send(self, message)`. -/
def AddrEnvelope.send {M : Type} :
    AddrEnvelope → ActorEndpoint M → M → ActorEndpoint M × Except Disconnected Unit
  | AddrEnvelope.strong _, e, m => AddressExt.send_strong e m
  | AddrEnvelope.weak _, e, m => AddressExt.send_weak e m

/-- `AddressEnvelope::downgrade` of the two impls in `src/envelope.rs`.  The
strong impl returns `Box::new(Address::downgrade(self))`; the weak impl is
`unimplemented!()`, a diverging panic that never returns a value — modelled
as `none`. -/
def AddrEnvelope.downgrade : AddrEnvelope → Option AddrEnvelope
  | AddrEnvelope.strong a => some (AddrEnvelope.weak (Address.downgrade a))
  | AddrEnvelope.weak _ => none

/-! ## Claim theorems -/

/-- C1: handling a `ReturningEnvelope` constructed from `m` invokes the
handler with the owned message, and upon completion of the handler's
computation sends exactly the produced value through the envelope's one-shot
sending half, so the receiving half yields exactly that value; the actor and
context end up exactly as the handler left them. -/
theorem returning_envelope_delivers_handler_result
    {A Ctx M R : Type} (h : Handler A Ctx M R) (m : M) (act : A) (ctx : Ctx) :
    (ReturningEnvelope.handle h (ReturningEnvelope.new m) act ctx).act = (h act m ctx).act ∧
    (ReturningEnvelope.handle h (ReturningEnvelope.new m) act ctx).ctx = (h act m ctx).ctx ∧
    (ReturningEnvelope.handle h (ReturningEnvelope.new m) act ctx).chan.value
        = some (h act m ctx).result ∧
    Oneshot.recv (ReturningEnvelope.handle h (ReturningEnvelope.new m) act ctx).chan
        = Except.ok (h act m ctx).result := by
  refine ⟨rfl, rfl, ?_, ?_⟩ <;>
    simp [ReturningEnvelope.handle, ReturningEnvelope.new, Oneshot.channel, Oneshot.send,
      Oneshot.recv]

/-- C2: when the envelope's paired receiving half has already been dropped,
handling completes normally with exactly the handler's actor/context outcome
and the reply send silently no-ops: the channel's value slot is untouched (the
handler's result is discarded) and no error is surfaced in the result of
`handle`. -/
theorem returning_envelope_dropped_receiver_silent
    {A Ctx M R : Type} (h : Handler A Ctx M R) (env : ReturningEnvelope M R)
    (act : A) (ctx : Ctx) (hd : env.result_sender.receiverDropped = true) :
    ReturningEnvelope.handle h env act ctx
      = { act := (h act env.message ctx).act
          ctx := (h act env.message ctx).ctx
          chan := { env.result_sender with sends := env.result_sender.sends + 1 } } := by
  unfold ReturningEnvelope.handle Oneshot.send
  simp [hd]

/-- Witness for C2 at a concrete input: actor and message are `Nat`, the
handler adds the message to the actor and returns their product; with the
receiver dropped, handling still completes and nothing is placed in the
channel. -/
theorem returning_envelope_dropped_receiver_silent_witness :
    ({ message := 5, result_sender := { receiverDropped := true, value := none, sends := 0 } } :
        ReturningEnvelope Nat Nat).result_sender.receiverDropped = true ∧
    ReturningEnvelope.handle
        (fun a m c => { act := a + m, ctx := c, result := a * m })
        { message := 5, result_sender := { receiverDropped := true, value := none, sends := 0 } }
        2 3
      = { act := 7, ctx := 3,
          chan := { receiverDropped := true, value := none, sends := 1 } } :=
  ⟨rfl, returning_envelope_dropped_receiver_silent _ _ 2 3 rfl⟩

/-- C3: handling a `NonReturningEnvelope` constructed from `m` invokes the
handler, drives its computation to completion, and discards the produced
result entirely: the output is the handler's actor and context together with
the unit value, and no reply channel is involved. -/
theorem nonreturning_envelope_discards_result
    {A Ctx M R : Type} (h : Handler A Ctx M R) (m : M) (act : A) (ctx : Ctx) :
    NonReturningEnvelope.handle h (NonReturningEnvelope.new m) act ctx
      = ((h act m ctx).act, (h act m ctx).ctx, ()) := rfl

/-- C4: for every actor state, context, message and reply-channel state,
handling a `ReturningEnvelope` and handling a `NonReturningEnvelope` for the
same message leave the actor and the context in identical final states; the
variants differ only in the reply channel. -/
theorem envelope_variants_identical_actor_effect
    {A Ctx M R : Type} (h : Handler A Ctx M R) (m : M) (ch : Oneshot R)
    (act : A) (ctx : Ctx) :
    (ReturningEnvelope.handle h { message := m, result_sender := ch } act ctx).act
        = (NonReturningEnvelope.handle h { message := m } act ctx).1 ∧
    (ReturningEnvelope.handle h { message := m, result_sender := ch } act ctx).ctx
        = (NonReturningEnvelope.handle h { message := m } act ctx).2.1 :=
  ⟨rfl, rfl⟩

/-- C5: `handle` takes `self: Box<Self>` by value, so the first run-loop
attempt consumes the box, and any later attempt finds no envelope to invoke:
over every number of attempts the lifetime state equals the state after the
single first attempt — the carried message occurrence is applied to the actor
at most once.  This holds for every boxed envelope, hence for both
variants. -/
theorem boxed_envelope_handled_at_most_once
    {A Ctx R : Type} (s : EnvelopeLife A Ctx R) (n : Nat) :
    (EnvelopeLife.step s).boxed = none ∧
    EnvelopeLife.step^[n + 1] s = EnvelopeLife.step s := by
  constructor
  · unfold EnvelopeLife.step
    cases hb : s.boxed with
    | none => simp [hb]
    | some e => simp
  · exact EnvelopeLife.iterate_step s n

/-- C6: `handle` never fails — its output type carries no error — and its
only effects are the handler's own mutation of actor and context plus, for a
`ReturningEnvelope`, exactly one send operation on the reply channel that
emits at most one reply (the channel's value is either untouched or set to
the handler's result, and the receiver-side flag is untouched); a
`NonReturningEnvelope` produces exactly the handler's actor and context and
the unit value. -/
theorem handle_frame_effects
    {A Ctx M R : Type} (h : Handler A Ctx M R) (env : ReturningEnvelope M R)
    (envN : NonReturningEnvelope M) (act : A) (ctx : Ctx) :
    (ReturningEnvelope.handle h env act ctx).act = (h act env.message ctx).act ∧
    (ReturningEnvelope.handle h env act ctx).ctx = (h act env.message ctx).ctx ∧
    (ReturningEnvelope.handle h env act ctx).chan.receiverDropped
        = env.result_sender.receiverDropped ∧
    (ReturningEnvelope.handle h env act ctx).chan.sends = env.result_sender.sends + 1 ∧
    ((ReturningEnvelope.handle h env act ctx).chan.value = env.result_sender.value ∨
      (ReturningEnvelope.handle h env act ctx).chan.value
        = some (h act env.message ctx).result) ∧
    NonReturningEnvelope.handle h envN act ctx
        = ((h act envN.message ctx).act, (h act envN.message ctx).ctx, ()) := by
  refine ⟨rfl, rfl, ?_, ?_, ?_, rfl⟩ <;>
    unfold ReturningEnvelope.handle Oneshot.send <;>
    by_cases hd : env.result_sender.receiverDropped <;>
    simp [hd]

/-- C7: over the entire lifetime of a `ReturningEnvelope` — construction by
`new` with a fresh channel, then any number of run-loop attempts — at most
one value is ever sent through its one-shot reply channel: the ghost send
counter of the channel never exceeds 1 in any reachable state. -/
theorem reply_channel_at_most_one_send
    {A Ctx M R : Type} (h : Handler A Ctx M R) (m : M) (act : A) (ctx : Ctx) (n : Nat) :
    (EnvelopeLife.step^[n] (EnvelopeLife.initReturning h m act ctx)).chan.sends ≤ 1 := by
  cases n with
  | zero => simp [EnvelopeLife.initReturning, Oneshot.channel]
  | succ k =>
      rw [EnvelopeLife.iterate_step]
      simp [EnvelopeLife.initReturning, EnvelopeLife.step, ReturningEnvelope.intoBoxed,
        ReturningEnvelope.handle, ReturningEnvelope.new, Oneshot.channel, Oneshot.send]

/-- C8: `downgrade` on the weak-backed `AddressEnvelope` impl is
`unimplemented!()` — it diverges and never returns a value — while on the
strong backing it returns a new envelope backed by a non-owning weak
reference to the same actor. -/
theorem downgrade_weak_unsupported (w : WeakAddress) (a : Address) :
    AddrEnvelope.downgrade (AddrEnvelope.weak w) = none ∧
    AddrEnvelope.downgrade (AddrEnvelope.strong a)
      = some (AddrEnvelope.weak { ref := a.ref }) :=
  ⟨rfl, rfl⟩

/-- C9: the strong-backed and weak-backed `AddressEnvelope` impls delegate to
the corresponding `AddressExt` operations and behave identically for
`is_connected`, `do_send` and `send` as long as the actor has not vanished
(some strong owner remains); once it has vanished the weak backing reports
`false` respectively `Disconnected`.  They differ otherwise only in
`downgrade`. -/
theorem strong_weak_backings_agree
    {M : Type} (a : Address) (w : WeakAddress) (e : ActorEndpoint M) (m : M) :
    AddrEnvelope.is_connected (AddrEnvelope.weak w) e
      = (e.strongAlive && AddrEnvelope.is_connected (AddrEnvelope.strong a) e) ∧
    AddrEnvelope.do_send (AddrEnvelope.weak w) e m
      = (if e.strongAlive = true then AddrEnvelope.do_send (AddrEnvelope.strong a) e m
          else (e, Except.error Disconnected.disconnected)) ∧
    AddrEnvelope.send (AddrEnvelope.weak w) e m
      = (if e.strongAlive = true then AddrEnvelope.send (AddrEnvelope.strong a) e m
          else (e, Except.error Disconnected.disconnected)) := by
  refine ⟨rfl, ?_, ?_⟩ <;>
    cases hs : e.strongAlive <;> cases hm : e.mailboxOpen <;>
    simp [AddrEnvelope.do_send, AddrEnvelope.send, AddressExt.do_send_strong,
      AddressExt.do_send_weak, AddressExt.send_strong, AddressExt.send_weak,
      AddressExt.is_connected_strong, AddressExt.is_connected_weak, hs, hm]

/-- C10: the handler is invoked with exactly the message the envelope was
constructed with: `new` stores the message unchanged in both variants, and
`handle` passes that stored message — for every handler `h` — directly to
`h`, so neither variant clones, modifies or substitutes the payload between
construction and dispatch. -/
theorem handler_receives_exact_message
    {A Ctx M R : Type} (h : Handler A Ctx M R) (m : M) (ch : Oneshot R)
    (act : A) (ctx : Ctx) :
    (ReturningEnvelope.new m : ReturningEnvelope M R).message = m ∧
    (NonReturningEnvelope.new m).message = m ∧
    ReturningEnvelope.handle h { message := m, result_sender := ch } act ctx
      = { act := (h act m ctx).act, ctx := (h act m ctx).ctx,
          chan := (ch.send (h act m ctx).result).1 } ∧
    NonReturningEnvelope.handle h { message := m } act ctx
      = ((h act m ctx).act, (h act m ctx).ctx, ()) :=
  ⟨rfl, rfl, rfl, rfl⟩
